import Mathlib

/-!
Verification development for the `eros` Go error-handling library
(`src/errors.go`, the `Result`/handler file, and its tests).

The embedding is a shallow model of the Go code:

* Go's `error` interface values are modelled by the inductive `GoErr`.
  The universe of dynamic types appearing in the library and its tests is
  closed: `*eros.Error` (constructor `ptrE`, carrying a heap address so that
  Go pointer identity is observable), the `eros.Error` struct value
  (constructor `valE`, produced by `dereference`), and foreign comparable
  error pointers such as `*errors.errorString` or `*reflect.ValueError`
  (constructor `foreign`, identified by an allocation id: two instances with
  the same message are distinct, as Go pointer equality dictates).
* A possibly-nil `*eros.Error` is `PtrErr` (`null` models the nil pointer);
  a possibly-nil `error` interface value is `OErr` (`none` models nil).
* Allocation (`&Error{...}`) is modelled by threading a fresh-address
  counter `Nat`; every allocating operation takes the counter and returns
  the bumped counter.
* `panic`/`recover` control flow is modelled with `Except`: a panicking
  computation produces `Except.error` carrying the panic payload.
* Loops (`Is`, `As`) and the non-structural recursion of `WithCause` are
  modelled with an explicit fuel argument; the exported wrappers instantiate
  the fuel with a structural bound that dominates the recursion depth, so
  the exhausted-fuel branch is unreachable.
-/

namespace Eros

mutual

/-- The Go struct `eros.Error` (`msg`, `cause error`, `next *Error`, `count int`). -/
inductive Error : Type where
  | mk : String → OErr → PtrErr → Int → Error

/-- A `*eros.Error` value: either the nil pointer or a pointer with its
heap address and pointee. -/
inductive PtrErr : Type where
  | null : PtrErr
  | mk : Nat → Error → PtrErr

/-- A Go `error` interface value, possibly nil. -/
inductive OErr : Type where
  | none : OErr
  | some : GoErr → OErr

/-- A non-nil Go `error` interface value of one of the dynamic types that
occur in the library and its tests. -/
inductive GoErr : Type where
  | foreign : Nat → String → GoErr
  | ptrE : Nat → Error → GoErr
  | valE : Error → GoErr

end

/-- Field accessor: `e.msg`. -/
def Error.msg : Error → String
  | Error.mk m _ _ _ => m

/-- Field accessor: `e.cause`. -/
def Error.cause : Error → OErr
  | Error.mk _ c _ _ => c

/-- Field accessor: `e.next`. -/
def Error.next : Error → PtrErr
  | Error.mk _ _ n _ => n

/-- Field accessor: `e.count`. -/
def Error.count : Error → Int
  | Error.mk _ _ _ k => k

/-- `eros.Error.Count` - returns the depth count of the errors
(`func (s Error) Count() int { return s.count }`). -/
def CountE : Error → Int
  | Error.mk _ _ _ k => k

/-- Depth count read through a pointer, as Go's `p.Count()` implicitly
dereferences; never applied to `null` in this development. -/
def countP : PtrErr → Int
  | PtrErr.null => 0
  | PtrErr.mk _ v => CountE v

/-- Go's implicit conversion of a `*eros.Error` to the `error` interface.
(`null` maps to the nil interface; no code path in this development converts
a nil pointer, since every `*Error` the library returns is freshly
allocated.) -/
def ptrAsError : PtrErr → OErr
  | PtrErr.null => OErr.none
  | PtrErr.mk a v => OErr.some (GoErr.ptrE a v)

mutual

/-- Structural size of a `GoErr`, used as a fuel bound for chain walks. -/
def sizeG : GoErr → Nat
  | GoErr.foreign _ _ => 1
  | GoErr.ptrE _ v => 1 + sizeErr v
  | GoErr.valE v => 1 + sizeErr v

/-- Structural size of an `Error` struct. -/
def sizeErr : Error → Nat
  | Error.mk _ c n _ => 1 + sizeO c + sizeP n

/-- Structural size of an `error` interface value. -/
def sizeO : OErr → Nat
  | OErr.none => 0
  | OErr.some g => sizeG g

/-- Structural size of a `*Error` value. -/
def sizeP : PtrErr → Nat
  | PtrErr.null => 0
  | PtrErr.mk _ v => 1 + sizeErr v

end

mutual

/-- Go interface equality (`==`) between two non-nil `error` values:
equal dynamic types and `==`-equal payloads.  Pointer types compare by
address; the `Error` struct value compares field-wise (its `cause` field
with interface equality, its `next` field with pointer equality).  All
dynamic types in the modelled universe are comparable, so the comparison
never panics. -/
def goEq : GoErr → GoErr → Bool
  | GoErr.foreign i _, GoErr.foreign j _ => i == j
  | GoErr.ptrE a _, GoErr.ptrE b _ => a == b
  | GoErr.valE v, GoErr.valE w => errEq v w
  | _, _ => false

/-- Go `==` on two `eros.Error` struct values (field-wise). -/
def errEq : Error → Error → Bool
  | Error.mk m1 c1 n1 k1, Error.mk m2 c2 n2 k2 =>
      m1 == m2 && oerrEq c1 c2 && ptrEqB n1 n2 && k1 == k2

/-- Go `==` on two `error` interface values (nil-aware). -/
def oerrEq : OErr → OErr → Bool
  | OErr.none, OErr.none => true
  | OErr.some g, OErr.some h => goEq g h
  | _, _ => false

/-- Go `==` on two `*eros.Error` pointers (address identity). -/
def ptrEqB : PtrErr → PtrErr → Bool
  | PtrErr.null, PtrErr.null => true
  | PtrErr.mk a _, PtrErr.mk b _ => a == b
  | _, _ => false

end

/-- `eros.New` - Just return an error and string
(`&Error{msg, nil, nil, 0}`); allocates a fresh address. -/
def New (msg : String) (σ : Nat) : PtrErr × Nat :=
  (PtrErr.mk σ (Error.mk msg OErr.none PtrErr.null 0), σ + 1)

/-- `eros.Wrap` - Wrap an error (`&Error{msg, err, nil, 1}`). -/
def Wrap (err : OErr) (msg : String) (σ : Nat) : PtrErr × Nat :=
  (PtrErr.mk σ (Error.mk msg err PtrErr.null 1), σ + 1)

/-- `eros.dereference` - strips one level of pointer indirection when the
pointee implements `error`.  `*eros.Error` dereferences to the `Error`
struct value (its `Error()` method has a value receiver); foreign pointers
such as `*errors.errorString` do not (their `Error()` method has a pointer
receiver, so the pointee does not implement `error`); non-pointer values are
returned unchanged. -/
def dereference : GoErr → GoErr
  | GoErr.ptrE _ v => GoErr.valE v
  | e => e

/-- The method-set probe `err.(interface{ Unwrap() error })` followed by the
`(e *Error) Unwrap` method: `next` if present, else `cause`.  Foreign
errors and `Error` struct values (whose method set lacks the
pointer-receiver `Unwrap`) yield nothing. -/
def unwrapTop : GoErr → Option GoErr
  | GoErr.foreign _ _ => Option.none
  | GoErr.valE _ => Option.none
  | GoErr.ptrE _ (Error.mk _ c n _) =>
      match n with
      | PtrErr.mk b w => Option.some (GoErr.ptrE b w)
      | PtrErr.null =>
          match c with
          | OErr.some g => Option.some g
          | OErr.none => Option.none

/-- The loop body of `eros.Is`: test `err == target` at the current node,
then follow `Unwrap`.  (No type in the modelled universe carries a custom
`Is(error) bool` method, so that branch of the source loop is vacuous; every
modelled target type is comparable, so `isComparable` is `true`.)  The fuel
dominates the walk length. -/
def isLoopF : Nat → GoErr → GoErr → Bool
  | 0, _, _ => false
  | fuel + 1, e, t =>
      goEq e t ||
        match unwrapTop e with
        | Option.some e' => isLoopF fuel e' t
        | Option.none => false

/-- `eros.Is` - test for equality: nil target matches only nil `err`;
otherwise walk the unwrap chain of `err` testing interface equality. -/
def Is (err target : OErr) : Bool :=
  match target with
  | OErr.none =>
      match err with
      | OErr.none => true
      | OErr.some _ => false
  | OErr.some t =>
      match err with
      | OErr.none => false
      | OErr.some e => isLoopF (sizeG e) e t

/-- `eros.CastOrWrap` - cast an interface error to an `*Error`; if the
dereferenced value is an `Error` struct, return a freshly allocated copy of
it, otherwise wrap the original error under the fixed message. -/
def CastOrWrap (err : OErr) (σ : Nat) : PtrErr × Nat :=
  match err with
  | OErr.none => Wrap OErr.none "cast to eros.Error" σ
  | OErr.some e =>
      match dereference e with
      | GoErr.valE v => (PtrErr.mk σ v, σ + 1)
      | _ => Wrap err "cast to eros.Error" σ

/-- Length of the `next`-chain hanging off a `*Error`, counting the node
itself; measures the recursion of `WithCause`. -/
def nlenP : PtrErr → Nat
  | PtrErr.null => 0
  | PtrErr.mk _ (Error.mk _ _ n _) => 1 + nlenP n

/-- `next`-chain length of the `*Error` that `CastOrWrap` would produce
from a given error value. -/
def nlenG : GoErr → Nat
  | GoErr.foreign _ _ => 1
  | GoErr.ptrE _ (Error.mk _ _ n _) => 1 + nlenP n
  | GoErr.valE (Error.mk _ _ n _) => 1 + nlenP n

/-- `nlenG` lifted to a possibly-nil error. -/
def nlenO : OErr → Nat
  | OErr.none => 1
  | OErr.some g => nlenG g

/-- Fuel bound for `WithCause`: the recursion swaps the freshly coerced
argument into receiver position and the old `next` chain into argument
position, shrinking `nlenP receiver + nlenO argument` by one at each step. -/
def wcFuel (e : PtrErr) (err : OErr) : Nat :=
  nlenP e + nlenO err + 1

/-- Fuelled body of `eros.WithCause` - appends a new cause error to the
chain, nil safe: a nil receiver coerces the argument; a nil argument or an
argument already in the receiver's chain (per `Is`) is a no-op; otherwise
the coercion `v` of the argument becomes the new `next` (with the previous
`next` chain merged onto `v` by the recursive call `v.WithCause(e.next)`),
and `count` becomes `v.count + 1` read after the merge. -/
def wcF : Nat → PtrErr → OErr → Nat → PtrErr × Nat
  | 0, e, _, σ => (e, σ)
  | _ + 1, PtrErr.null, err, σ => CastOrWrap err σ
  | fuel + 1, PtrErr.mk a v, err, σ =>
      match err with
      | OErr.none => (PtrErr.mk a v, σ)
      | OErr.some _ =>
          if Is (OErr.some (GoErr.ptrE a v)) err then (PtrErr.mk a v, σ)
          else
            match CastOrWrap err σ with
            | (vp, σ1) =>
                match v with
                | Error.mk m c PtrErr.null _ =>
                    (PtrErr.mk a (Error.mk m c vp (countP vp + 1)), σ1)
                | Error.mk m c (PtrErr.mk b w) _ =>
                    match wcF fuel vp (OErr.some (GoErr.ptrE b w)) σ1 with
                    | (merged, σ2) =>
                        (PtrErr.mk a (Error.mk m c merged (countP merged + 1)), σ2)

/-- `eros.WithCause` with the fuel instantiated at its structural bound. -/
def WithCause (e : PtrErr) (err : OErr) (σ : Nat) : PtrErr × Nat :=
  wcF (wcFuel e err) e err σ

/-- A Go panic payload as it occurs in this library: an `*eros.Error`
(raised by `Check`, `CheckVal`, `CheckNotNil`), some other error-like value
(e.g. the `*reflect.ValueError` raised inside `reflect.Value.IsNil`), or a
value that does not implement `error`. -/
inductive PanicVal : Type where
  | pErr : PtrErr → PanicVal
  | pForeign : GoErr → PanicVal
  | other : Nat → PanicVal

/-- `eros.Result` - represents the traditional (value, error) tuple as an
actual return type (`Value T`, `Error error`; the error field is named
`Err` here to avoid clashing with the `Error` type). -/
structure Result (α : Type) : Type where
  Value : α
  Err : OErr

/-- `Result.Check` - raises a panic carrying `CastOrWrap(r.Error)` if the
error is set, otherwise returns the value. -/
def Result.Check {α : Type} (r : Result α) (σ : Nat) :
    Except (PanicVal × Nat) (α × Nat) :=
  match r.Err with
  | OErr.none => Except.ok (r.Value, σ)
  | OErr.some _ =>
      match CastOrWrap r.Err σ with
      | (p, σ1) => Except.error (PanicVal.pErr p, σ1)

/-- `Result.Handle` - handles the error in a lambda, then still returns the
value; the handler invocation is recorded as the list of arguments it
receives (empty when the error is nil). -/
def Result.Handle {α : Type} (r : Result α) (σ : Nat) :
    List PtrErr × α × Nat :=
  match r.Err with
  | OErr.none => ([], r.Value, σ)
  | OErr.some _ =>
      match CastOrWrap r.Err σ with
      | (p, σ1) => ([p], r.Value, σ1)

/-- Top-level `eros.Check` - panics with `CastOrWrap(err)` when `err` is
non-nil, otherwise a no-op. -/
def Check (err : OErr) (σ : Nat) : Except (PanicVal × Nat) (Unit × Nat) :=
  match err with
  | OErr.none => Except.ok ((), σ)
  | OErr.some _ =>
      match CastOrWrap err σ with
      | (p, σ1) => Except.error (PanicVal.pErr p, σ1)

/-- `eros.Cast` - cast the (value, error) pair to a `Result`. -/
def Cast {α : Type} (val : α) (err : OErr) : Result α :=
  Result.mk val err

/-- `eros.CheckVal` - construction plus `Check`. -/
def CheckVal {α : Type} (val : α) (err : OErr) (σ : Nat) :
    Except (PanicVal × Nat) (α × Nat) :=
  (Result.mk val err).Check σ

/-- A value of a generic type `T` as `reflect` sees it in `CheckNotNil`:
either a nil-able reference kind (pointer, map, slice, ...) that may hold
no referent, or a non-nil-able kind such as `int`. -/
inductive GoValue (β : Type) : Type where
  | ref : Option β → GoValue β
  | plain : β → GoValue β

/-- The message of the `*reflect.ValueError` that `reflect.Value.IsNil`
panics with on a non-nil-able kind. -/
def reflectIsNilMsg : String :=
  "reflect: call of reflect.Value.IsNil on int Value"

/-- Go's `reflect.ValueOf(val).IsNil()`: reports whether a reference-kind
value is nil and panics with a `*reflect.ValueError` (which implements
`error`) on any non-nil-able kind.  Modelled from the documented behavior of
the Go standard library `reflect` package, which is outside this
repository. -/
def reflectIsNil {β : Type} : GoValue β → Except PanicVal Bool
  | GoValue.ref r => Except.ok r.isNone
  | GoValue.plain _ =>
      Except.error (PanicVal.pForeign (GoErr.foreign 0 reflectIsNilMsg))

/-- `eros.CheckNotNil` - prove `val` isn't nil and return it, otherwise
panic with `New(msg)`; the `reflect.Value.IsNil` probe itself panics on
non-nil-able kinds. -/
def CheckNotNil {β : Type} (val : GoValue β) (msg : String) (σ : Nat) :
    Except (PanicVal × Nat) (GoValue β × Nat) :=
  match reflectIsNil val with
  | Except.error p => Except.error (p, σ)
  | Except.ok true =>
      match New msg σ with
      | (p, σ1) => Except.error (PanicVal.pErr p, σ1)
  | Except.ok false => Except.ok (val, σ)

/-- The deferred cleanup returned by `eros.ErrorHandler`, applied to the
result of `recover()` (`none` when the scope completed normally): an
error-like panic payload is handed to the handler as `CastOrWrap` of it and
the unwinding is suppressed; any other payload is re-panicked unchanged.
Returns the list of handler invocations, the surviving panic (if any), and
the allocation counter. -/
def ErrorHandler (recov : Option PanicVal) (σ : Nat) :
    List PtrErr × Option PanicVal × Nat :=
  match recov with
  | Option.none => ([], Option.none, σ)
  | Option.some (PanicVal.pErr p) =>
      match CastOrWrap (ptrAsError p) σ with
      | (q, σ1) => ([q], Option.none, σ1)
  | Option.some (PanicVal.pForeign g) =>
      match CastOrWrap (OErr.some g) σ with
      | (q, σ1) => ([q], Option.none, σ1)
  | Option.some (PanicVal.other n) => ([], Option.some (PanicVal.other n), σ)

/-- A protected scope: run the body to completion or to its panic, then run
the `ErrorHandler` cleanup exactly once with the recovered payload.
Returns the handler invocations, the panic that still propagates (if any),
the body's value when it completed normally, and the allocation counter. -/
def runProtected {α : Type} (body : Except (PanicVal × Nat) (α × Nat)) :
    List PtrErr × Option PanicVal × Option α × Nat :=
  match body with
  | Except.ok (a, σ) =>
      match ErrorHandler Option.none σ with
      | (calls, rp, σ1) => (calls, rp, Option.some a, σ1)
  | Except.error (pv, σ) =>
      match ErrorHandler (Option.some pv) σ with
      | (calls, rp, σ1) => (calls, rp, Option.none, σ1)

/-- The Go types that occur as `As` target element types in this
development: the `eros.Error` struct, `*eros.Error`, a foreign error
pointer type, the `error` interface itself, and a type that neither is an
interface nor implements `error` (e.g. `int`). -/
inductive GoType : Type where
  | tError : GoType
  | tPtrError : GoType
  | tForeignPtr : GoType
  | tErrorIface : GoType
  | tInt : GoType
deriving DecidableEq, Repr

/-- `reflect.Type.Kind() == reflect.Interface` over the modelled universe. -/
def isIfaceT : GoType → Bool
  | GoType.tErrorIface => true
  | _ => false

/-- `Implements(errorType)` over the modelled universe: `eros.Error` has a
value-receiver `Error()` method, so the struct, its pointer, and foreign
error pointers all implement `error`; `int` does not. -/
def implementsError : GoType → Bool
  | GoType.tError => true
  | GoType.tPtrError => true
  | GoType.tForeignPtr => true
  | GoType.tErrorIface => false
  | GoType.tInt => false

/-- The target element type is valid for `As` when it is an interface or
implements `error` (the negation of the source's panic condition). -/
def validTarget (t : GoType) : Bool :=
  isIfaceT t || implementsError t

/-- `reflect.TypeOf` of a non-nil error value in the modelled universe. -/
def typeOf : GoErr → GoType
  | GoErr.foreign _ _ => GoType.tForeignPtr
  | GoErr.ptrE _ _ => GoType.tPtrError
  | GoErr.valE _ => GoType.tError

/-- `reflect` assignability over the modelled universe: identical types, or
any type implementing `error` assigned to the `error` interface. -/
def assignableTo (src tgt : GoType) : Bool :=
  src == tgt || (tgt == GoType.tErrorIface && implementsError src)

/-- The target argument of `eros.As`: a nil interface, a non-pointer value,
a nil pointer, or a non-nil pointer with its element type and current
contents. -/
inductive AsTarget : Type where
  | nilT : AsTarget
  | nonPtrT : AsTarget
  | nilPtrT : AsTarget
  | ptrT : GoType → Option GoErr → AsTarget

/-- The loop of `eros.As`: at each node strip one level of indirection and
test assignability to the target element type; on failure follow `Unwrap`.
Returns the dereferenced value that is copied into the target, if any.  (No
type in the modelled universe carries a custom `As(interface{}) bool`
method, so that branch of the source loop is vacuous.) -/
def asLoopF : Nat → GoErr → GoType → Option GoErr
  | 0, _, _ => Option.none
  | fuel + 1, e, tgt =>
      let de := dereference e
      if assignableTo (typeOf de) tgt then Option.some de
      else
        match unwrapTop e with
        | Option.some e' => asLoopF fuel e' tgt
        | Option.none => Option.none

/-- `eros.As` - check and assign, in consideration of the entire chain,
dereferencing pointers so that `As` can succeed on struct targets.  Invalid
targets are programmer errors surfaced as panics (modelled by
`Except.error` carrying the panic message). -/
def As (err : OErr) (target : AsTarget) : Except String (Bool × AsTarget) :=
  match target with
  | AsTarget.nilT => Except.error "errors: target cannot be nil"
  | AsTarget.nonPtrT => Except.error "errors: target must be a non-nil pointer"
  | AsTarget.nilPtrT => Except.error "errors: target must be a non-nil pointer"
  | AsTarget.ptrT decl content =>
      if validTarget decl then
        match err with
        | OErr.none => Except.ok (false, AsTarget.ptrT decl content)
        | OErr.some e =>
            match asLoopF (sizeG e) e decl with
            | Option.some de => Except.ok (true, AsTarget.ptrT decl (Option.some de))
            | Option.none => Except.ok (false, AsTarget.ptrT decl content)
      else Except.error "errors: *target must be interface or implement error"

/-- The unwrap chain of a non-nil error, fuelled. -/
def chainLF : Nat → GoErr → List GoErr
  | 0, _ => []
  | fuel + 1, e =>
      e ::
        match unwrapTop e with
        | Option.some e' => chainLF fuel e'
        | Option.none => []

/-- The unwrap chain of a non-nil error: the node itself followed by the
chain of its `Unwrap`, with the fuel instantiated at its structural
bound. -/
def chainL (e : GoErr) : List GoErr :=
  chainLF (sizeG e) e

/-- The messages along a `next` chain, head first; used to state unwrap
order. -/
def nextMsgs : PtrErr → List String
  | PtrErr.null => []
  | PtrErr.mk _ (Error.mk m _ n _) => m :: nextMsgs n

/-- Three sequential `WithCause` calls starting from a nil receiver, as in
`e := (*Error)(nil).WithCause(err1); e.WithCause(err2); e.WithCause(err3)`,
threading the allocation counter from `0`. -/
def accumulate3 (g1 g2 g3 : GoErr) : PtrErr × Nat :=
  match WithCause PtrErr.null (OErr.some g1) 0 with
  | (e1, s1) =>
      match WithCause e1 (OErr.some g2) s1 with
      | (e2, s2) => WithCause e2 (OErr.some g3) s2

/-- `CastOrWrap` always returns a freshly allocated non-nil pointer at the
current counter and bumps the counter by one. -/
theorem castOrWrap_shape (err : OErr) (σ : Nat) :
    ∃ w, CastOrWrap err σ = (PtrErr.mk σ w, σ + 1) := by
  cases err with
  | none => exact ⟨_, rfl⟩
  | some g =>
      cases g with
      | foreign i m => exact ⟨_, rfl⟩
      | ptrE a v => exact ⟨v, rfl⟩
      | valE v => exact ⟨v, rfl⟩

/-- `CastOrWrap` preserves the `next`-chain length: the copy shares the
pointee's `next` chain and the wrap has none. -/
theorem nlen_castOrWrap (err : OErr) (σ : Nat) :
    nlenP (CastOrWrap err σ).1 = nlenO err := by
  cases err with
  | none => rfl
  | some g =>
      cases g with
      | foreign i m => rfl
      | ptrE a v => cases v; rfl
      | valE v => cases v; rfl

/-- The `As` loop finds a node iff some node of the (equally fuelled) unwrap
chain dereferences to a value assignable to the target type, and the found
value is the dereference of such a node. -/
theorem asLoop_find (fuel : Nat) :
    ∀ (e : GoErr) (tgt : GoType),
      (asLoopF fuel e tgt = Option.none →
        ∀ x ∈ chainLF fuel e, assignableTo (typeOf (dereference x)) tgt = false)
      ∧ (∀ d, asLoopF fuel e tgt = Option.some d →
        ∃ x ∈ chainLF fuel e, assignableTo (typeOf (dereference x)) tgt = true
          ∧ d = dereference x) := by
  induction fuel with
  | zero =>
      intro e tgt
      exact ⟨fun _ x hx => by simp [chainLF] at hx,
        fun d hd => by simp [asLoopF] at hd⟩
  | succ fuel ih =>
      intro e tgt
      constructor
      · intro hnone x hx
        simp only [asLoopF] at hnone
        by_cases hass : assignableTo (typeOf (dereference e)) tgt = true
        · simp [hass] at hnone
        · simp only [Bool.not_eq_true] at hass
          simp only [hass, if_false] at hnone
          simp only [chainLF, List.mem_cons] at hx
          rcases hx with rfl | hx'
          · exact hass
          · match hu : unwrapTop e with
            | Option.some e' =>
                rw [hu] at hnone
                rw [hu] at hx'
                exact (ih e' tgt).1 hnone x hx'
            | Option.none =>
                rw [hu] at hx'
                simp at hx'
      · intro d hd
        simp only [asLoopF] at hd
        by_cases hass : assignableTo (typeOf (dereference e)) tgt = true
        · simp only [hass, if_true] at hd
          exact ⟨e, by simp [chainLF], hass, by injection hd with h; exact h.symm⟩
        · simp only [Bool.not_eq_true] at hass
          simp only [hass, if_false] at hd
          match hu : unwrapTop e with
          | Option.some e' =>
              rw [hu] at hd
              obtain ⟨x, hx, h1, h2⟩ := (ih e' tgt).2 d hd
              exact ⟨x, by simp [chainLF, hu, hx], h1, h2⟩
          | Option.none =>
              rw [hu] at hd
              simp at hd

/-- Claim C1: the claim (and the repository's own `TestIs` case
"Test Error that should be comparable to even though they are different")
expects `Is` to identify two distinct `New` instances with the same message,
but `Is` compares `*Error` interface values by pointer identity: at the
failing input, the two pointees are `==`-equal `Error` structs (first
conjunct) while `Is` on the two distinct pointers returns `false` (second
conjunct). -/
theorem C1_is_pointer_identity :
    errEq (Error.mk "This is an eros Error" OErr.none PtrErr.null 0)
        (Error.mk "This is an eros Error" OErr.none PtrErr.null 0) = true
    ∧ Is (OErr.some (GoErr.ptrE 1 (Error.mk "This is an eros Error" OErr.none PtrErr.null 0)))
        (OErr.some (GoErr.ptrE 0 (Error.mk "This is an eros Error" OErr.none PtrErr.null 0))) =
        false := by
  decide

/-- Claim C2, counterexample: take `e` with message "head" whose `next`
chain is the single link "old", and a fresh foreign error not in `e`'s
chain (third conjunct checks the claim's hypothesis).  After `WithCause`
the unwrap order is head, new coercion, old link - the new link does NOT
go behind the previously attached one, refuting the claimed order. -/
theorem C2_counterexample :
    Is (OErr.some (GoErr.ptrE 0 (Error.mk "head" OErr.none
        (PtrErr.mk 1 (Error.mk "old" OErr.none PtrErr.null 0)) 1)))
      (OErr.some (GoErr.foreign 7 "f")) = false
    ∧ nextMsgs (WithCause (PtrErr.mk 0 (Error.mk "head" OErr.none
        (PtrErr.mk 1 (Error.mk "old" OErr.none PtrErr.null 0)) 1))
        (OErr.some (GoErr.foreign 7 "f")) 2).1 =
        ["head", "cast to eros.Error", "old"]
    ∧ nextMsgs (WithCause (PtrErr.mk 0 (Error.mk "head" OErr.none
        (PtrErr.mk 1 (Error.mk "old" OErr.none PtrErr.null 0)) 1))
        (OErr.some (GoErr.foreign 7 "f")) 2).1 ≠
        ["head", "old", "cast to eros.Error"] := by
  decide

/-- Claim C2, amended: for a non-nil receiver whose `next` chain is
non-empty (first old link `w` at address `b`), and a non-nil error not in
the receiver's chain whose coercion carries no `next` links of its own
(hypothesis `hcast`; this holds for every non-ChainedError argument and for
ChainedError arguments without `next` links) and whose coercion does not
already contain the old link (hypothesis `hmerge`, true in particular for
the fresh coercion address), `WithCause` installs the coercion as the new
head of the `next` chain and merges the previously attached links onto the
coercion's tail - so the new link comes ahead of them in unwrap order - and
sets the receiver's depth to the merged link's depth plus one.  (When the
coercion carries `next` links of its own, the recursive merge interleaves
the previously attached links into the coercion's chain instead; the
counterexample's refuted order never occurs.) -/
theorem C2_merge_order (a b : Nat) (m : String) (c : OErr) (k : Int)
    (w : Error) (g : GoErr) (mg : String) (cg : OErr) (kg : Int) (σ : Nat)
    (hin : Is (OErr.some (GoErr.ptrE a (Error.mk m c (PtrErr.mk b w) k)))
      (OErr.some g) = false)
    (hcast : CastOrWrap (OErr.some g) σ =
      (PtrErr.mk σ (Error.mk mg cg PtrErr.null kg), σ + 1))
    (hmerge : Is (OErr.some (GoErr.ptrE σ (Error.mk mg cg PtrErr.null kg)))
      (OErr.some (GoErr.ptrE b w)) = false) :
    WithCause (PtrErr.mk a (Error.mk m c (PtrErr.mk b w) k)) (OErr.some g) σ =
      (PtrErr.mk a (Error.mk m c
         (PtrErr.mk σ (Error.mk mg cg (PtrErr.mk (σ + 1) w) (CountE w + 1)))
         (CountE w + 1 + 1)), σ + 2) := by
  have hg : nlenG g = 1 := by
    have hlen := nlen_castOrWrap (OErr.some g) σ
    rw [hcast] at hlen
    simpa [nlenP, nlenO] using hlen.symm
  obtain ⟨mw, cw, nw, kw⟩ := w
  simp only [WithCause, wcFuel, nlenP, nlenO, hg, wcF, hin, Bool.false_eq_true,
    if_false, hcast]
  simp only [wcF, hmerge, Bool.false_eq_true, if_false, CastOrWrap, dereference,
    countP, CountE]

/-- Claim C2, witness for the amended theorem: the counterexample's input (a
foreign argument, whose coercion is the depth-1 wrap with no `next`
links). -/
theorem C2_merge_order_wit :
    Is (OErr.some (GoErr.ptrE 0 (Error.mk "head" OErr.none
        (PtrErr.mk 1 (Error.mk "old" OErr.none PtrErr.null 0)) 1)))
      (OErr.some (GoErr.foreign 7 "f")) = false
    ∧ CastOrWrap (OErr.some (GoErr.foreign 7 "f")) 2 =
        (PtrErr.mk 2 (Error.mk "cast to eros.Error" (OErr.some (GoErr.foreign 7 "f"))
          PtrErr.null 1), 2 + 1)
    ∧ Is (OErr.some (GoErr.ptrE 2 (Error.mk "cast to eros.Error"
        (OErr.some (GoErr.foreign 7 "f")) PtrErr.null 1)))
        (OErr.some (GoErr.ptrE 1 (Error.mk "old" OErr.none PtrErr.null 0))) = false
    ∧ WithCause (PtrErr.mk 0 (Error.mk "head" OErr.none
        (PtrErr.mk 1 (Error.mk "old" OErr.none PtrErr.null 0)) 1))
        (OErr.some (GoErr.foreign 7 "f")) 2 =
      (PtrErr.mk 0 (Error.mk "head" OErr.none
         (PtrErr.mk 2 (Error.mk "cast to eros.Error" (OErr.some (GoErr.foreign 7 "f"))
            (PtrErr.mk (2 + 1) (Error.mk "old" OErr.none PtrErr.null 0))
            (CountE (Error.mk "old" OErr.none PtrErr.null 0) + 1)))
         (CountE (Error.mk "old" OErr.none PtrErr.null 0) + 1 + 1)), 2 + 2) :=
  ⟨by decide, rfl, by decide,
    C2_merge_order 0 1 "head" OErr.none 1 (Error.mk "old" OErr.none PtrErr.null 0)
      (GoErr.foreign 7 "f") "cast to eros.Error" (OErr.some (GoErr.foreign 7 "f")) 1 2
      (by decide) rfl (by decide)⟩

/-- Claim C3, counterexample: three pairwise non-identical (per `Is`, both
directions) non-nil errors that happen to be `*eros.Error` instances built
by `New` (depth 0).  Three sequential `WithCause` calls from a nil receiver
yield a head whose `Count()` is 2, not 3: the coercion of a `ChainedError`
copies its depth 0 instead of wrapping at depth 1. -/
theorem C3_counterexample :
    Is (OErr.some (GoErr.ptrE 100 (Error.mk "a" OErr.none PtrErr.null 0)))
      (OErr.some (GoErr.ptrE 101 (Error.mk "b" OErr.none PtrErr.null 0))) = false
    ∧ Is (OErr.some (GoErr.ptrE 101 (Error.mk "b" OErr.none PtrErr.null 0)))
      (OErr.some (GoErr.ptrE 100 (Error.mk "a" OErr.none PtrErr.null 0))) = false
    ∧ Is (OErr.some (GoErr.ptrE 100 (Error.mk "a" OErr.none PtrErr.null 0)))
      (OErr.some (GoErr.ptrE 102 (Error.mk "c" OErr.none PtrErr.null 0))) = false
    ∧ Is (OErr.some (GoErr.ptrE 102 (Error.mk "c" OErr.none PtrErr.null 0)))
      (OErr.some (GoErr.ptrE 100 (Error.mk "a" OErr.none PtrErr.null 0))) = false
    ∧ Is (OErr.some (GoErr.ptrE 101 (Error.mk "b" OErr.none PtrErr.null 0)))
      (OErr.some (GoErr.ptrE 102 (Error.mk "c" OErr.none PtrErr.null 0))) = false
    ∧ Is (OErr.some (GoErr.ptrE 102 (Error.mk "c" OErr.none PtrErr.null 0)))
      (OErr.some (GoErr.ptrE 101 (Error.mk "b" OErr.none PtrErr.null 0))) = false
    ∧ countP (accumulate3 (GoErr.ptrE 100 (Error.mk "a" OErr.none PtrErr.null 0))
        (GoErr.ptrE 101 (Error.mk "b" OErr.none PtrErr.null 0))
        (GoErr.ptrE 102 (Error.mk "c" OErr.none PtrErr.null 0))).1 = 2
    ∧ countP (accumulate3 (GoErr.ptrE 100 (Error.mk "a" OErr.none PtrErr.null 0))
        (GoErr.ptrE 101 (Error.mk "b" OErr.none PtrErr.null 0))
        (GoErr.ptrE 102 (Error.mk "c" OErr.none PtrErr.null 0))).1 ≠ 3 := by
  decide

/-- Claim C3, amended: for three pairwise non-identical foreign (non-
ChainedError) errors - whose coercion wraps at depth 1 - three sequential
`WithCause` calls on an initially-nil error produce a chain whose head's
`Count()` equals 3. -/
theorem C3_foreign_accumulation (i1 i2 i3 : Nat) (m1 m2 m3 : String)
    (h12 : i1 ≠ i2) (h13 : i1 ≠ i3) (h23 : i2 ≠ i3) :
    countP (accumulate3 (GoErr.foreign i1 m1) (GoErr.foreign i2 m2)
      (GoErr.foreign i3 m3)).1 = 3 := by
  have b12 : (i1 == i2) = false := by simp [h12]
  have b23 : (i2 == i3) = false := by simp [h23]
  have hne : i1 ≠ i3 := h13
  clear h13
  have h1 : WithCause PtrErr.null (OErr.some (GoErr.foreign i1 m1)) 0 =
      (PtrErr.mk 0 (Error.mk "cast to eros.Error" (OErr.some (GoErr.foreign i1 m1))
        PtrErr.null 1), 1) := rfl
  have hIs2 : Is (OErr.some (GoErr.ptrE 0 (Error.mk "cast to eros.Error"
      (OErr.some (GoErr.foreign i1 m1)) PtrErr.null 1)))
      (OErr.some (GoErr.foreign i2 m2)) = false := by
    simp [Is, isLoopF, sizeG, sizeErr, sizeO, sizeP, goEq, unwrapTop, b12]
  have h2 : WithCause (PtrErr.mk 0 (Error.mk "cast to eros.Error"
      (OErr.some (GoErr.foreign i1 m1)) PtrErr.null 1))
      (OErr.some (GoErr.foreign i2 m2)) 1 =
      (PtrErr.mk 0 (Error.mk "cast to eros.Error" (OErr.some (GoErr.foreign i1 m1))
        (PtrErr.mk 1 (Error.mk "cast to eros.Error" (OErr.some (GoErr.foreign i2 m2))
          PtrErr.null 1)) 2), 2) := by
    simp only [WithCause, wcFuel, nlenP, nlenG, nlenO, wcF, hIs2, Bool.false_eq_true,
      if_false, CastOrWrap, dereference, Wrap, countP, CountE]
    norm_num
  have hIs3 : Is (OErr.some (GoErr.ptrE 0 (Error.mk "cast to eros.Error"
      (OErr.some (GoErr.foreign i1 m1))
      (PtrErr.mk 1 (Error.mk "cast to eros.Error" (OErr.some (GoErr.foreign i2 m2))
        PtrErr.null 1)) 2)))
      (OErr.some (GoErr.foreign i3 m3)) = false := by
    simp [Is, isLoopF, sizeG, sizeErr, sizeO, sizeP, goEq, unwrapTop, b23]
  have h3 : WithCause (PtrErr.mk 0 (Error.mk "cast to eros.Error"
      (OErr.some (GoErr.foreign i1 m1))
      (PtrErr.mk 1 (Error.mk "cast to eros.Error" (OErr.some (GoErr.foreign i2 m2))
        PtrErr.null 1)) 2))
      (OErr.some (GoErr.foreign i3 m3)) 2 =
      (PtrErr.mk 0 (Error.mk "cast to eros.Error" (OErr.some (GoErr.foreign i1 m1))
        (PtrErr.mk 2 (Error.mk "cast to eros.Error" (OErr.some (GoErr.foreign i3 m3))
          (PtrErr.mk 3 (Error.mk "cast to eros.Error" (OErr.some (GoErr.foreign i2 m2))
            PtrErr.null 1)) 2)) 3), 4) := by
    simp only [WithCause, wcFuel, nlenP, nlenG, nlenO, wcF, hIs3, Bool.false_eq_true,
      if_false, CastOrWrap, dereference, Wrap, countP, CountE]
    simp [Is, isLoopF, sizeG, sizeErr, sizeO, sizeP, goEq, unwrapTop, dereference,
      countP, CountE, CastOrWrap, Wrap]
  simp only [accumulate3, h1, h2, h3, countP, CountE]

/-- Claim C3, witness for the amended theorem with three distinct foreign
instances. -/
theorem C3_foreign_accumulation_wit :
    (1 : Nat) ≠ 2 ∧ (1 : Nat) ≠ 3 ∧ (2 : Nat) ≠ 3
    ∧ countP (accumulate3 (GoErr.foreign 1 "a") (GoErr.foreign 2 "b")
        (GoErr.foreign 3 "c")).1 = 3 :=
  ⟨by decide, by decide, by decide,
    C3_foreign_accumulation 1 2 3 "a" "b" "c" (by decide) (by decide) (by decide)⟩

/-- Claim C4: a protected scope whose body aborts through `Check` on an
outcome carrying a non-nil error invokes the recovery handler exactly once
with a non-nil `*Error` and lets no panic propagate; a scope unwinding with
a non-error-like payload has that payload re-raised unchanged with no
handler call. -/
theorem C4_recovery_point {α : Type} (v : α) (e : GoErr) (σ n : Nat) :
    (∃ b w σ2, runProtected (Result.Check (Result.mk v (OErr.some e)) σ) =
        ([PtrErr.mk b w], Option.none, Option.none, σ2))
    ∧ runProtected (α := α) (Except.error (PanicVal.other n, σ)) =
        ([], Option.some (PanicVal.other n), Option.none, σ) := by
  constructor
  · obtain ⟨w, hw⟩ := castOrWrap_shape (OErr.some e) σ
    refine ⟨σ + 1, w, σ + 2, ?_⟩
    have h1 : Result.Check (Result.mk v (OErr.some e)) σ =
        Except.error (PanicVal.pErr (PtrErr.mk σ w), σ + 1) := by
      simp [Result.Check, hw]
    rw [h1]
    rfl
  · rfl

/-- Claim C5: `Result.Check` returns the value untouched when the error is
nil, and aborts carrying `CastOrWrap` of the error (never returning
normally) when it is non-nil; the top-level `Check` behaves likewise on a
bare error. -/
theorem C5_check_fails_fast {α : Type} (v : α) (e : GoErr) (σ : Nat) :
    Result.Check (Result.mk v OErr.none) σ = Except.ok (v, σ)
    ∧ Result.Check (Result.mk v (OErr.some e)) σ =
        Except.error (PanicVal.pErr (CastOrWrap (OErr.some e) σ).1,
          (CastOrWrap (OErr.some e) σ).2)
    ∧ Check OErr.none σ = Except.ok ((), σ)
    ∧ Check (OErr.some e) σ =
        Except.error (PanicVal.pErr (CastOrWrap (OErr.some e) σ).1,
          (CastOrWrap (OErr.some e) σ).2) :=
  ⟨rfl, rfl, rfl, rfl⟩

/-- Claim C6: `Result.Handle` with a non-nil error calls the handler
exactly once with `CastOrWrap` of the error and still returns the value;
with a nil error the handler is not called and the value is returned; in
both cases control continues (the result type carries no panic). -/
theorem C6_handle_fails_through {α : Type} (v : α) (e : GoErr) (σ : Nat) :
    Result.Handle (Result.mk v (OErr.some e)) σ =
        ([(CastOrWrap (OErr.some e) σ).1], v, (CastOrWrap (OErr.some e) σ).2)
    ∧ Result.Handle (Result.mk v OErr.none) σ = ([], v, σ) :=
  ⟨rfl, rfl⟩

/-- Claim C7: `WithCause` on a non-nil receiver with a nil argument is the
identity; with an argument already in the receiver's chain (per `Is`) it is
a no-op, leaving chain and depth unchanged; and on a nil receiver it
returns exactly the freshly allocated (hence non-nil) coercion of the
argument. -/
theorem C7_withCause_idempotent (a : Nat) (v : Error) (c err : OErr) (σ : Nat) :
    WithCause (PtrErr.mk a v) OErr.none σ = (PtrErr.mk a v, σ)
    ∧ (Is (ptrAsError (PtrErr.mk a v)) c = true →
        WithCause (PtrErr.mk a v) c σ = (PtrErr.mk a v, σ))
    ∧ (∃ b w, WithCause PtrErr.null err σ = (PtrErr.mk b w, σ + 1)
        ∧ (PtrErr.mk b w, σ + 1) = CastOrWrap err σ) := by
  obtain ⟨m, cc, n, k⟩ := v
  refine ⟨rfl, ?_, ?_⟩
  · intro h
    cases c with
    | none => simp [Is, ptrAsError] at h
    | some g =>
        simp only [ptrAsError] at h
        simp only [WithCause, wcFuel, nlenP, nlenG, nlenO, wcF, h, if_true]
  · obtain ⟨w, hw⟩ := castOrWrap_shape err σ
    refine ⟨σ, w, ?_, hw.symm⟩
    have hnull : WithCause PtrErr.null err σ = CastOrWrap err σ := by
      simp only [WithCause, wcFuel, nlenP, nlenO, wcF]
    rw [hnull, hw]

/-- Claim C7, witness: a receiver whose cause is a foreign error, tested
against that same foreign error. -/
theorem C7_withCause_idempotent_wit :
    Is (ptrAsError (PtrErr.mk 0 (Error.mk "x" (OErr.some (GoErr.foreign 5 "f"))
        PtrErr.null 1))) (OErr.some (GoErr.foreign 5 "f")) = true
    ∧ WithCause (PtrErr.mk 0 (Error.mk "x" (OErr.some (GoErr.foreign 5 "f"))
        PtrErr.null 1)) (OErr.some (GoErr.foreign 5 "f")) 3 =
      (PtrErr.mk 0 (Error.mk "x" (OErr.some (GoErr.foreign 5 "f")) PtrErr.null 1), 3) :=
  ⟨by decide,
    (C7_withCause_idempotent 0 (Error.mk "x" (OErr.some (GoErr.foreign 5 "f"))
      PtrErr.null 1) (OErr.some (GoErr.foreign 5 "f"))
      (OErr.some (GoErr.foreign 5 "f")) 3).2.1 (by decide)⟩

/-- Claim C8: `As` panics on a nil, non-pointer, nil-pointer, or ill-typed
target slot; with a valid slot it succeeds and populates the slot with a
dereferenced chain node iff some node of the chain, after stripping one
level of pointer indirection, is assignable to the slot's declared type,
and returns false leaving the slot unmodified otherwise. -/
theorem C8_as_chain (err : OErr) (e : GoErr) (decl : GoType)
    (content : Option GoErr) :
    As err AsTarget.nilT = Except.error "errors: target cannot be nil"
    ∧ As err AsTarget.nonPtrT = Except.error "errors: target must be a non-nil pointer"
    ∧ As err AsTarget.nilPtrT = Except.error "errors: target must be a non-nil pointer"
    ∧ (validTarget decl = false →
        As err (AsTarget.ptrT decl content) =
          Except.error "errors: *target must be interface or implement error")
    ∧ (validTarget decl = true →
        ((∀ x ∈ chainL e, assignableTo (typeOf (dereference x)) decl = false) →
            As (OErr.some e) (AsTarget.ptrT decl content) =
              Except.ok (false, AsTarget.ptrT decl content))
        ∧ ((∃ x ∈ chainL e, assignableTo (typeOf (dereference x)) decl = true) →
            ∃ x ∈ chainL e, assignableTo (typeOf (dereference x)) decl = true ∧
              As (OErr.some e) (AsTarget.ptrT decl content) =
                Except.ok (true, AsTarget.ptrT decl (Option.some (dereference x))))) := by
  refine ⟨rfl, rfl, rfl, ?_, ?_⟩
  · intro h
    simp [As, h]
  · intro h
    constructor
    · intro hall
      match hres : asLoopF (sizeG e) e decl with
      | Option.some d =>
          obtain ⟨x, hx, h1, _⟩ := (asLoop_find (sizeG e) e decl).2 d hres
          exact absurd h1 (by simp [hall x hx])
      | Option.none =>
          simp [As, h, hres]
    · intro hex
      match hres : asLoopF (sizeG e) e decl with
      | Option.some d =>
          obtain ⟨x, hx, h1, h2⟩ := (asLoop_find (sizeG e) e decl).2 d hres
          refine ⟨x, hx, h1, ?_⟩
          simp [As, h, hres, h2]
      | Option.none =>
          obtain ⟨x, hx, hxa⟩ := hex
          have hf := (asLoop_find (sizeG e) e decl).1 hres x hx
          simp [hf] at hxa

/-- Claim C8, witness: an `*Error` head wrapping a foreign cause, extracted
into a slot declared at the `Error` struct type: the head dereferences to
the struct and is assignable, so `As` succeeds and populates the slot. -/
theorem C8_as_chain_wit :
    validTarget GoType.tError = true
    ∧ (∃ x ∈ chainL (GoErr.ptrE 0 (Error.mk "h" (OErr.some (GoErr.foreign 3 "f"))
        PtrErr.null 1)), assignableTo (typeOf (dereference x)) GoType.tError = true)
    ∧ (∃ x ∈ chainL (GoErr.ptrE 0 (Error.mk "h" (OErr.some (GoErr.foreign 3 "f"))
        PtrErr.null 1)), assignableTo (typeOf (dereference x)) GoType.tError = true ∧
        As (OErr.some (GoErr.ptrE 0 (Error.mk "h" (OErr.some (GoErr.foreign 3 "f"))
          PtrErr.null 1))) (AsTarget.ptrT GoType.tError Option.none) =
          Except.ok (true, AsTarget.ptrT GoType.tError (Option.some (dereference x)))) :=
  ⟨by decide, by decide,
    ((C8_as_chain (OErr.some (GoErr.ptrE 0 (Error.mk "h"
        (OErr.some (GoErr.foreign 3 "f")) PtrErr.null 1)))
      (GoErr.ptrE 0 (Error.mk "h" (OErr.some (GoErr.foreign 3 "f")) PtrErr.null 1))
      GoType.tError Option.none).2.2.2.2 (by decide)).2 (by decide)⟩

/-- Claim C9: `CheckNotNil` on a non-nil reference returns that reference
unchanged without aborting; on a nil reference it aborts carrying a freshly
constructed `ChainedError` whose message equals the supplied message. -/
theorem C9_checkNotNil_ref {β : Type} (x : β) (m : String) (σ : Nat) :
    CheckNotNil (GoValue.ref (Option.some x)) m σ =
        Except.ok (GoValue.ref (Option.some x), σ)
    ∧ CheckNotNil (GoValue.ref (Option.none : Option β)) m σ =
        Except.error (PanicVal.pErr (PtrErr.mk σ (Error.mk m OErr.none PtrErr.null 0)), σ + 1)
    ∧ (Error.mk m OErr.none PtrErr.null 0).msg = m :=
  ⟨rfl, rfl, rfl⟩

/-- Claim C10: `CheckNotNil` on a value of a non-nil-able kind does not
return the value: `reflect.Value.IsNil` panics with a foreign runtime error
(the `*reflect.ValueError`), which is not an `*eros.Error` and in particular
not a `ChainedError` carrying the supplied message. -/
theorem C10_checkNotNil_nonNilable {β : Type} (x : β) (m : String) (σ : Nat) :
    CheckNotNil (GoValue.plain x) m σ =
        Except.error (PanicVal.pForeign (GoErr.foreign 0 reflectIsNilMsg), σ)
    ∧ (∀ p : PtrErr, PanicVal.pForeign (GoErr.foreign 0 reflectIsNilMsg) ≠ PanicVal.pErr p)
    ∧ (∀ (y : GoValue β) (σ2 : Nat), CheckNotNil (GoValue.plain x) m σ ≠ Except.ok (y, σ2)) := by
  refine ⟨rfl, ?_, ?_⟩
  · intro p h
    exact PanicVal.noConfusion h
  · intro y σ2 h
    exact Except.noConfusion h

end Eros
